import Mathlib

/-!
Verification of the SalaMANdER solid-mechanics module.

The module builds unevaluated symbolic weak-form residual expressions from a
displacement field, a test function and material parameters.  The embedding
evaluates those expressions pointwise over the reals:

* a rank-2 tensor expression of size nsd is a real square matrix
  `Matrix (Fin nsd) (Fin nsd) ℝ`;
* a displacement field `u` is represented by its UFL shape together with the
  value of `grad(u)` at the evaluation point (the only data the module reads
  from `u`); the zero displacement field has `grad(u) = 0`;
* a test function `v` enters the residuals only through `v` itself or
  `grad(v)`, so it is represented by the corresponding value;
* an integration measure is an opaque scalar factor `dx`; a residual
  expression `e*dx` is the real `e * dx`, so an expression is zero for every
  measure iff its integrand is zero;
* the keyword property mapping `props` is an association list from names to
  scalar values, and a missing-key lookup (Python `KeyError`) is `none`, so a
  method that reads `props` returns `Option ℝ`.
-/

noncomputable section

abbrev Mat (n : ℕ) : Type := Matrix (Fin n) (Fin n) ℝ

abbrev Vec (n : ℕ) : Type := Fin n → ℝ

/-- UFL `inner` on rank-1 tensors: the sum of products of components. -/
def vinner {n : ℕ} (a b : Vec n) : ℝ := ∑ i, a i * b i

/-- UFL `inner` on rank-2 tensors: the Frobenius pairing `A_ij B_ij`. -/
def frobInner {n : ℕ} (A B : Mat n) : ℝ := ∑ i, ∑ j, A i j * B i j

/-- Source `firstLameParameter(E,nu) = E*nu/((1+nu)*(1-2*nu))`. -/
def firstLameParameter (E nu : ℝ) : ℝ := E * nu / ((1 + nu) * (1 - 2 * nu))

/-- Source `secondLameParameter(E,nu) = E/(2*(1 + nu))`. -/
def secondLameParameter (E nu : ℝ) : ℝ := E / (2 * (1 + nu))

/-- Source `bulkModulus(E,nu) = firstLameParameter(E,nu) + 2/3*secondLameParameter(E,nu)`. -/
def bulkModulus (E nu : ℝ) : ℝ :=
  firstLameParameter E nu + 2 / 3 * secondLameParameter E nu

/-- Source `shearModulus(E,nu) = secondLameParameter(E,nu)`. -/
def shearModulus (E nu : ℝ) : ℝ := secondLameParameter E nu

/-- State stored by `MaterialModel.__init__`: the density `rho` and the
keyword property mapping `props`.  The constructor performs no validation. -/
structure MaterialModel where
  rho : ℝ
  props : List (String × ℝ)

/-- Source `getBasicTensors` dimension inference:
`nsd = 0 if not u.ufl_shape else u.ufl_shape[0]`. -/
def uflNsd : List ℕ → ℕ
  | [] => 0
  | k :: _ => k

/-- A displacement field as the module sees it: its UFL shape, plus the value
of `grad(u)` at the evaluation point, a square matrix of the inferred size. -/
structure DisplacementField where
  ufl_shape : List ℕ
  gradVal : Mat (uflNsd ufl_shape)

/-- Source `MaterialModel.getBasicTensors(u)`: infers `nsd` from the shape of
`u` (carried by `DisplacementField`), then returns the tuple
`I, F, J, C, E` with `I = Identity(nsd)`, `F = grad(u) + I`, `J = det(F)`,
`C = F.T*F`, `E = 0.5*(C-I)`. -/
def MaterialModel.getBasicTensors (_self : MaterialModel) (u : DisplacementField) :
    Mat (uflNsd u.ufl_shape) × Mat (uflNsd u.ufl_shape) × ℝ ×
      Mat (uflNsd u.ufl_shape) × Mat (uflNsd u.ufl_shape) :=
  let I : Mat (uflNsd u.ufl_shape) := 1
  let F := u.gradVal + I
  let J := F.det
  let C := F.transpose * F
  let E := (0.5 : ℝ) • (C - I)
  (I, F, J, C, E)

/-- Source `accelerationResidual(du_dtt, v, dx) = self.rho*inner(du_dtt,v)*dx`. -/
def MaterialModel.accelerationResidual (m : MaterialModel) {n : ℕ}
    (du_dtt v : Vec n) (dx : ℝ) : ℝ :=
  m.rho * vinner du_dtt v * dx

/-- Source `massDampingResidual(du_dt, c, v, dx) = self.rho*c*inner(du_dt,v)*dx`. -/
def MaterialModel.massDampingResidual (m : MaterialModel) {n : ℕ}
    (du_dt : Vec n) (c : ℝ) (v : Vec n) (dx : ℝ) : ℝ :=
  m.rho * c * vinner du_dt v * dx

/-- Source `bodyforceResidual(f, v, dx) = - self.rho*inner(f,v)*dx`. -/
def MaterialModel.bodyforceResidual (m : MaterialModel) {n : ℕ}
    (f v : Vec n) (dx : ℝ) : ℝ :=
  -(m.rho * vinner f v) * dx

/-- Source `tractionBCResidual(h, v, ds) = - inner(v,h)*ds`. -/
def MaterialModel.tractionBCResidual (_m : MaterialModel) {n : ℕ}
    (h v : Vec n) (ds : ℝ) : ℝ :=
  -(vinner v h) * ds

/-- Source `penaltyWeakBCResidual(u, v, g, beta, ds) = - inner(beta*(u-g),v)*ds`. -/
def MaterialModel.penaltyWeakBCResidual (_m : MaterialModel) {n : ℕ}
    (u v g : Vec n) (beta : ℝ) (ds : ℝ) : ℝ :=
  -(vinner (beta • (u - g)) v) * ds

/-- Subclass `StVenantKirchoff(MaterialModel)`: adds no fields and inherits
the constructor unchanged. -/
structure StVenantKirchoff extends MaterialModel

/-- Subclass `NeoHookean(MaterialModel)`: adds no fields and inherits the
constructor unchanged. -/
structure NeoHookean extends MaterialModel

/-- Subclass `JacobianStiffening(MaterialModel)`: adds no fields and inherits
the constructor unchanged. -/
structure JacobianStiffening extends MaterialModel

/-- The second Piola-Kirchhoff stress assembled inside
`StVenantKirchoff.interiorResidual`:
`S = kappa*tr(E)*I + 2.0*mu*(E - tr(E)*I/3.0)`. -/
def stVenantKirchoffStress (kappa mu : ℝ) {n : ℕ} (I E : Mat n) : Mat n :=
  (kappa * Matrix.trace E) • I + (2.0 * mu) • (E - (Matrix.trace E / 3.0) • I)

/-- Source `StVenantKirchoff.interiorResidual(u, v, dx)`: destructures
`getBasicTensors(u)`, looks up `kappa` then `mu` in the property mapping
(each lookup can raise, modelled by `Option`), forms the stress `S` and
returns `inner(F*S, grad(v))*dx`. -/
def StVenantKirchoff.interiorResidual (s : StVenantKirchoff) (u : DisplacementField)
    (gradv : Mat (uflNsd u.ufl_shape)) (dx : ℝ) : Option ℝ :=
  match s.toMaterialModel.getBasicTensors u with
  | (I, F, _, _, E) => do
      let kappa ← s.toMaterialModel.props.lookup "kappa"
      let mu ← s.toMaterialModel.props.lookup "mu"
      let S := stVenantKirchoffStress kappa mu I E
      pure (frobInner (F * S) gradv * dx)

/-- The second Piola-Kirchhoff stress assembled inside
`NeoHookean.interiorResidual`, with `nsd = tr(I)`:
`S = mu*(J**(-2/3))*(I-(tr(C) + (3-nsd))/3*inv(C)) + kappa/2*((J**2)-1)*inv(C)`. -/
def neoHookeanStress (kappa mu : ℝ) {n : ℕ} (I : Mat n) (J : ℝ) (C : Mat n) : Mat n :=
  let nsd : ℝ := Matrix.trace I
  (mu * Real.rpow J (-2 / 3)) • (I - ((Matrix.trace C + (3 - nsd)) / 3) • C⁻¹)
    + (kappa / 2 * (J ^ 2 - 1)) • C⁻¹

/-- Source `NeoHookean.interiorResidual(u, v, S0=None, dx)`: destructures
`getBasicTensors(u)`; when `S0` is not supplied it is set to
`Constant(0)*I`; looks up `mu` then `kappa`, forms the stress `S` and
returns `inner(F*(S+S0), grad(v))*dx`. -/
def NeoHookean.interiorResidual (m : NeoHookean) (u : DisplacementField)
    (gradv : Mat (uflNsd u.ufl_shape)) (S0 : Option (Mat (uflNsd u.ufl_shape)))
    (dx : ℝ) : Option ℝ :=
  match m.toMaterialModel.getBasicTensors u with
  | (I, F, J, C, _) => do
      let S0v : Mat (uflNsd u.ufl_shape) :=
        match S0 with
        | none => (0 : ℝ) • I
        | some s => s
      let mu ← m.toMaterialModel.props.lookup "mu"
      let kappa ← m.toMaterialModel.props.lookup "kappa"
      let S := neoHookeanStress kappa mu I J C
      pure (frobInner (F * (S + S0v)) gradv * dx)

/-- The fictitious bulk modulus computed inside
`JacobianStiffening.interiorResidual`:
`K = bulkModulus(fictitious_E/pow(J_M, power_J_M), fictitious_nu)` with
`fictitious_E = Constant(1.0)` and `fictitious_nu = Constant(0.3)`. -/
def fictitiousBulkModulus (J_M power : ℝ) : ℝ :=
  bulkModulus (1.0 / Real.rpow J_M power) 0.3

/-- The fictitious shear modulus computed inside
`JacobianStiffening.interiorResidual`:
`mu = shearModulus(fictitious_E/pow(J_M, power_J_M), fictitious_nu)`. -/
def fictitiousShearModulus (J_M power : ℝ) : ℝ :=
  shearModulus (1.0 / Real.rpow J_M power) 0.3

/-- Source `JacobianStiffening.interiorResidual(u, v, J_M, dx)`: destructures
`getBasicTensors(u)`, derives the fictitious moduli from the externally
supplied mesh Jacobian `J_M` and the `power_J_M` property (looked up once for
`K` and once for `mu`), forms the St. Venant-Kirchhoff stress with those
moduli and returns `inner(F*S, grad(v))*dx`. -/
def JacobianStiffening.interiorResidual (m : JacobianStiffening) (u : DisplacementField)
    (gradv : Mat (uflNsd u.ufl_shape)) (J_M : ℝ) (dx : ℝ) : Option ℝ :=
  match m.toMaterialModel.getBasicTensors u with
  | (I, F, _, _, E) => do
      let pK ← m.toMaterialModel.props.lookup "power_J_M"
      let K := fictitiousBulkModulus J_M pK
      let pmu ← m.toMaterialModel.props.lookup "power_J_M"
      let mu := fictitiousShearModulus J_M pmu
      let S := (K * Matrix.trace E) • I + (2.0 * mu) • (E - (Matrix.trace E / 3.0) • I)
      pure (frobInner (F * S) gradv * dx)

/-! Inherited methods.  The three subclasses define only `interiorResidual`;
every other method is resolved on the base class.  The delegations below spell
out that resolution so that statements can speak about, say, the
`accelerationResidual` of a `NeoHookean` instance. -/

def StVenantKirchoff.accelerationResidual (s : StVenantKirchoff) {n : ℕ}
    (du_dtt v : Vec n) (dx : ℝ) : ℝ :=
  s.toMaterialModel.accelerationResidual du_dtt v dx

def StVenantKirchoff.massDampingResidual (s : StVenantKirchoff) {n : ℕ}
    (du_dt : Vec n) (c : ℝ) (v : Vec n) (dx : ℝ) : ℝ :=
  s.toMaterialModel.massDampingResidual du_dt c v dx

def StVenantKirchoff.bodyforceResidual (s : StVenantKirchoff) {n : ℕ}
    (f v : Vec n) (dx : ℝ) : ℝ :=
  s.toMaterialModel.bodyforceResidual f v dx

def StVenantKirchoff.tractionBCResidual (s : StVenantKirchoff) {n : ℕ}
    (h v : Vec n) (ds : ℝ) : ℝ :=
  s.toMaterialModel.tractionBCResidual h v ds

def StVenantKirchoff.penaltyWeakBCResidual (s : StVenantKirchoff) {n : ℕ}
    (u v g : Vec n) (beta : ℝ) (ds : ℝ) : ℝ :=
  s.toMaterialModel.penaltyWeakBCResidual u v g beta ds

def NeoHookean.accelerationResidual (m : NeoHookean) {n : ℕ}
    (du_dtt v : Vec n) (dx : ℝ) : ℝ :=
  m.toMaterialModel.accelerationResidual du_dtt v dx

def NeoHookean.massDampingResidual (m : NeoHookean) {n : ℕ}
    (du_dt : Vec n) (c : ℝ) (v : Vec n) (dx : ℝ) : ℝ :=
  m.toMaterialModel.massDampingResidual du_dt c v dx

def NeoHookean.bodyforceResidual (m : NeoHookean) {n : ℕ}
    (f v : Vec n) (dx : ℝ) : ℝ :=
  m.toMaterialModel.bodyforceResidual f v dx

def NeoHookean.tractionBCResidual (m : NeoHookean) {n : ℕ}
    (h v : Vec n) (ds : ℝ) : ℝ :=
  m.toMaterialModel.tractionBCResidual h v ds

def NeoHookean.penaltyWeakBCResidual (m : NeoHookean) {n : ℕ}
    (u v g : Vec n) (beta : ℝ) (ds : ℝ) : ℝ :=
  m.toMaterialModel.penaltyWeakBCResidual u v g beta ds

def JacobianStiffening.accelerationResidual (m : JacobianStiffening) {n : ℕ}
    (du_dtt v : Vec n) (dx : ℝ) : ℝ :=
  m.toMaterialModel.accelerationResidual du_dtt v dx

def JacobianStiffening.massDampingResidual (m : JacobianStiffening) {n : ℕ}
    (du_dt : Vec n) (c : ℝ) (v : Vec n) (dx : ℝ) : ℝ :=
  m.toMaterialModel.massDampingResidual du_dt c v dx

def JacobianStiffening.bodyforceResidual (m : JacobianStiffening) {n : ℕ}
    (f v : Vec n) (dx : ℝ) : ℝ :=
  m.toMaterialModel.bodyforceResidual f v dx

def JacobianStiffening.tractionBCResidual (m : JacobianStiffening) {n : ℕ}
    (h v : Vec n) (ds : ℝ) : ℝ :=
  m.toMaterialModel.tractionBCResidual h v ds

def JacobianStiffening.penaltyWeakBCResidual (m : JacobianStiffening) {n : ℕ}
    (u v g : Vec n) (beta : ℝ) (ds : ℝ) : ℝ :=
  m.toMaterialModel.penaltyWeakBCResidual u v g beta ds

/-! Spec-side formulas for the five shared residual methods, written from the
words of the specification, to be compared with the source definitions. -/

/-- Spec formula: `accelerationResidual(a, v, measure) = rho*(a . v)*measure`. -/
def spec_accelerationResidual (rho : ℝ) {n : ℕ} (a v : Vec n) (dx : ℝ) : ℝ :=
  rho * vinner a v * dx

/-- Spec formula: `massDampingResidual(vdot, c, v, measure) = rho*c*(vdot . v)*measure`. -/
def spec_massDampingResidual (rho : ℝ) {n : ℕ} (vdot : Vec n) (c : ℝ) (v : Vec n)
    (dx : ℝ) : ℝ :=
  rho * c * vinner vdot v * dx

/-- Spec formula: `bodyforceResidual(f, v, measure) = -rho*(f . v)*measure`. -/
def spec_bodyforceResidual (rho : ℝ) {n : ℕ} (f v : Vec n) (dx : ℝ) : ℝ :=
  -(rho * vinner f v * dx)

/-- Spec formula: `tractionBCResidual(h, v, measure) = -(h . v)*measure`. -/
def spec_tractionBCResidual {n : ℕ} (h v : Vec n) (ds : ℝ) : ℝ :=
  -(vinner h v * ds)

/-- Spec formula: `penaltyWeakBCResidual(u, v, g, beta, measure) = -(beta*(u-g) . v)*measure`. -/
def spec_penaltyWeakBCResidual {n : ℕ} (u v g : Vec n) (beta ds : ℝ) : ℝ :=
  -(vinner (beta • (u - g)) v * ds)

/-! Instantiation semantics.  The source marks
`MaterialModel.interiorResidual` with the `abstractmethod` decorator, so the
language runtime refuses to instantiate a class that does not implement it.
The tiny model below records, for each class of the module, which abstract
methods are declared and which methods each class body implements, and
replays the documented instantiation rule: constructing an instance raises a
`TypeError` iff some abstract method remains unimplemented; otherwise the
constructor stores `rho` and `props` without validating them. -/

inductive SalamanderClass
  | materialModel
  | stVenantKirchoff
  | neoHookean
  | jacobianStiffening
deriving DecidableEq

/-- Methods of the base class carrying the `abstractmethod` decorator. -/
def abstractDeclared : List String := ["interiorResidual"]

/-- Methods implemented (given a body) in each class of the module; the base
class gives `interiorResidual` no body, each subclass gives it one. -/
def implementsMethod : SalamanderClass → List String
  | .materialModel =>
      ["accelerationResidual", "massDampingResidual", "bodyforceResidual",
       "tractionBCResidual", "penaltyWeakBCResidual", "getBasicTensors"]
  | .stVenantKirchoff => ["interiorResidual"]
  | .neoHookean => ["interiorResidual"]
  | .jacobianStiffening => ["interiorResidual"]

/-- Abstract methods a class leaves unimplemented. -/
def unimplementedAbstract (c : SalamanderClass) : List String :=
  abstractDeclared.filter (fun nm => ¬ (nm ∈ implementsMethod c))

/-- Modelled instantiation of a class of the module: a `TypeError` when an
abstract method is unimplemented, otherwise the state `__init__` stores. -/
def instantiateClass (c : SalamanderClass) (rho : ℝ) (props : List (String × ℝ)) :
    Except String MaterialModel :=
  if unimplementedAbstract c = [] then .ok ⟨rho, props⟩
  else .error "TypeError: cannot instantiate abstract class"

/-! Helper lemmas. -/

theorem frobInner_zero_left {n : ℕ} (B : Mat n) : frobInner (0 : Mat n) B = 0 := by
  simp [frobInner]

theorem getBasicTensors_grad_zero (m : MaterialModel) (u : DisplacementField)
    (h : u.gradVal = 0) :
    m.getBasicTensors u = (1, 1, 1, 1, 0) := by
  simp [MaterialModel.getBasicTensors, h]

theorem stVenantKirchoffStress_strain_zero (kappa mu : ℝ) (n : ℕ) :
    stVenantKirchoffStress kappa mu (1 : Mat n) 0 = 0 := by
  simp [stVenantKirchoffStress]

theorem neoHookeanStress_reference (kappa mu : ℝ) (n : ℕ) :
    neoHookeanStress kappa mu (1 : Mat n) 1 1 = 0 := by
  have h : ((n : ℝ) + (3 - (n : ℝ))) / 3 = 1 := by ring
  simp [neoHookeanStress, Real.one_rpow, inv_one, Matrix.trace_one,
    Fintype.card_fin, h]

/-- C1: with zero displacement (grad u = 0) the kinematic tensors are
`F = I`, `J = 1`, `C = I`, `E = 0`; the St. Venant-Kirchhoff stress at
`E = 0` and the Neo-Hookean stress at `J = 1, C = I` are the zero tensor
(the Jacobian-stiffening stress is the St. Venant-Kirchhoff formula, covered
by the same conjunct for arbitrary moduli); and each of the three laws
returns the zero residual for every test function and every measure,
provided its property lookups succeed. -/
theorem c1_zero_displacement_all_laws
    (s : StVenantKirchoff) (nh : NeoHookean) (js : JacobianStiffening)
    (u : DisplacementField) (gradv : Mat (uflNsd u.ufl_shape))
    (dx J_M kappa mu kappaNH muNH p : ℝ)
    (hu : u.gradVal = 0)
    (hsk : s.toMaterialModel.props.lookup "kappa" = some kappa)
    (hsm : s.toMaterialModel.props.lookup "mu" = some mu)
    (hnm : nh.toMaterialModel.props.lookup "mu" = some muNH)
    (hnk : nh.toMaterialModel.props.lookup "kappa" = some kappaNH)
    (hjp : js.toMaterialModel.props.lookup "power_J_M" = some p) :
    s.toMaterialModel.getBasicTensors u = (1, 1, 1, 1, 0) ∧
    stVenantKirchoffStress kappa mu (1 : Mat (uflNsd u.ufl_shape)) 0 = 0 ∧
    neoHookeanStress kappaNH muNH (1 : Mat (uflNsd u.ufl_shape)) 1 1 = 0 ∧
    s.interiorResidual u gradv dx = some 0 ∧
    nh.interiorResidual u gradv none dx = some 0 ∧
    js.interiorResidual u gradv J_M dx = some 0 := by
  refine ⟨getBasicTensors_grad_zero _ u hu, stVenantKirchoffStress_strain_zero _ _ _,
    neoHookeanStress_reference _ _ _, ?_, ?_, ?_⟩
  · simp [StVenantKirchoff.interiorResidual, getBasicTensors_grad_zero _ u hu,
      hsk, hsm, stVenantKirchoffStress_strain_zero, frobInner_zero_left]
  · simp [NeoHookean.interiorResidual, getBasicTensors_grad_zero _ u hu,
      hnm, hnk, neoHookeanStress_reference, frobInner_zero_left]
  · simp [JacobianStiffening.interiorResidual, getBasicTensors_grad_zero _ u hu,
      hjp, frobInner_zero_left]

/-- C2: `getBasicTensors` returns exactly the tuple `(I, F, J, C, E)` with
`I` the identity of the inferred size, `F = grad(u) + I`, `J = det F`,
`C = F.T*F`, `E = (1/2)*(C - I)`; the inferred size is `0` for a rank-0
(shapeless) displacement and the first axis of the shape otherwise. -/
theorem c2_getBasicTensors_formulas (m : MaterialModel) (u : DisplacementField) :
    m.getBasicTensors u =
      (1, u.gradVal + 1, Matrix.det (u.gradVal + 1),
        (u.gradVal + 1).transpose * (u.gradVal + 1),
        ((1 : ℝ) / 2) • ((u.gradVal + 1).transpose * (u.gradVal + 1) - 1)) ∧
    uflNsd [] = 0 ∧ ∀ (k : ℕ) (rest : List ℕ), uflNsd (k :: rest) = k := by
  have h05 : (0.5 : ℝ) = 1 / 2 := by norm_num
  exact ⟨by simp [MaterialModel.getBasicTensors, h05], rfl, fun k rest => rfl⟩

/-- C6: for a Neo-Hookean material, omitting `S0` (passing `none`) yields the
same residual expression as passing the zero tensor explicitly, for every
displacement, test function and measure. -/
theorem c6_neoHookean_S0_default (m : NeoHookean) (u : DisplacementField)
    (gradv : Mat (uflNsd u.ufl_shape)) (dx : ℝ) :
    m.interiorResidual u gradv none dx = m.interiorResidual u gradv (some 0) dx := by
  rcases h : m.toMaterialModel.getBasicTensors u with ⟨I, F, J, C, E⟩
  simp [NeoHookean.interiorResidual, h]

theorem vinner_comm {n : ℕ} (a b : Vec n) : vinner a b = vinner b a := by
  simp [vinner, mul_comm]

/-- C3: with equal densities, the five shared residual methods of the three
concrete laws return the same expression (none of the subclasses overrides
them), and each agrees with the spec formula for that method. -/
theorem c3_shared_residual_methods
    (s : StVenantKirchoff) (nh : NeoHookean) (js : JacobianStiffening)
    {n : ℕ} (a vdot f h u v g : Vec n) (c beta dx ds : ℝ)
    (h1 : s.toMaterialModel.rho = nh.toMaterialModel.rho)
    (h2 : nh.toMaterialModel.rho = js.toMaterialModel.rho) :
    (s.accelerationResidual a v dx =
        spec_accelerationResidual s.toMaterialModel.rho a v dx ∧
      nh.accelerationResidual a v dx =
        spec_accelerationResidual s.toMaterialModel.rho a v dx ∧
      js.accelerationResidual a v dx =
        spec_accelerationResidual s.toMaterialModel.rho a v dx) ∧
    (s.massDampingResidual vdot c v dx =
        spec_massDampingResidual s.toMaterialModel.rho vdot c v dx ∧
      nh.massDampingResidual vdot c v dx =
        spec_massDampingResidual s.toMaterialModel.rho vdot c v dx ∧
      js.massDampingResidual vdot c v dx =
        spec_massDampingResidual s.toMaterialModel.rho vdot c v dx) ∧
    (s.bodyforceResidual f v dx =
        spec_bodyforceResidual s.toMaterialModel.rho f v dx ∧
      nh.bodyforceResidual f v dx =
        spec_bodyforceResidual s.toMaterialModel.rho f v dx ∧
      js.bodyforceResidual f v dx =
        spec_bodyforceResidual s.toMaterialModel.rho f v dx) ∧
    (s.tractionBCResidual h v ds = spec_tractionBCResidual h v ds ∧
      nh.tractionBCResidual h v ds = spec_tractionBCResidual h v ds ∧
      js.tractionBCResidual h v ds = spec_tractionBCResidual h v ds) ∧
    (s.penaltyWeakBCResidual u v g beta ds = spec_penaltyWeakBCResidual u v g beta ds ∧
      nh.penaltyWeakBCResidual u v g beta ds = spec_penaltyWeakBCResidual u v g beta ds ∧
      js.penaltyWeakBCResidual u v g beta ds = spec_penaltyWeakBCResidual u v g beta ds) := by
  have hr1 : nh.toMaterialModel.rho = s.toMaterialModel.rho := h1.symm
  have hr2 : js.toMaterialModel.rho = s.toMaterialModel.rho := by rw [← h2, ← h1]
  refine ⟨⟨?_, ?_, ?_⟩, ⟨?_, ?_, ?_⟩, ⟨?_, ?_, ?_⟩, ⟨?_, ?_, ?_⟩, ⟨?_, ?_, ?_⟩⟩ <;>
    simp [StVenantKirchoff.accelerationResidual, NeoHookean.accelerationResidual,
      JacobianStiffening.accelerationResidual, MaterialModel.accelerationResidual,
      StVenantKirchoff.massDampingResidual, NeoHookean.massDampingResidual,
      JacobianStiffening.massDampingResidual, MaterialModel.massDampingResidual,
      StVenantKirchoff.bodyforceResidual, NeoHookean.bodyforceResidual,
      JacobianStiffening.bodyforceResidual, MaterialModel.bodyforceResidual,
      StVenantKirchoff.tractionBCResidual, NeoHookean.tractionBCResidual,
      JacobianStiffening.tractionBCResidual, MaterialModel.tractionBCResidual,
      StVenantKirchoff.penaltyWeakBCResidual, NeoHookean.penaltyWeakBCResidual,
      JacobianStiffening.penaltyWeakBCResidual, MaterialModel.penaltyWeakBCResidual,
      spec_accelerationResidual, spec_massDampingResidual, spec_bodyforceResidual,
      spec_tractionBCResidual, spec_penaltyWeakBCResidual,
      hr1, hr2, vinner_comm, neg_mul]

/-- C4: constructing a concrete law with a property mapping that misses a
required key succeeds (no validation happens at construction), and the first
call of `interiorResidual` returns the missing-key failure rather than a
defaulted value. -/
theorem c4_missing_property_lazy_failure
    (rho : ℝ) (props : List (String × ℝ)) (u : DisplacementField)
    (gradv : Mat (uflNsd u.ufl_shape)) (dx J_M : ℝ) :
    (instantiateClass .stVenantKirchoff rho props = .ok ⟨rho, props⟩ ∧
      instantiateClass .neoHookean rho props = .ok ⟨rho, props⟩ ∧
      instantiateClass .jacobianStiffening rho props = .ok ⟨rho, props⟩) ∧
    (props.lookup "kappa" = none →
      StVenantKirchoff.interiorResidual ⟨⟨rho, props⟩⟩ u gradv dx = none) ∧
    (props.lookup "mu" = none →
      StVenantKirchoff.interiorResidual ⟨⟨rho, props⟩⟩ u gradv dx = none) ∧
    (props.lookup "mu" = none →
      NeoHookean.interiorResidual ⟨⟨rho, props⟩⟩ u gradv none dx = none) ∧
    (props.lookup "kappa" = none →
      NeoHookean.interiorResidual ⟨⟨rho, props⟩⟩ u gradv none dx = none) ∧
    (props.lookup "power_J_M" = none →
      JacobianStiffening.interiorResidual ⟨⟨rho, props⟩⟩ u gradv J_M dx = none) := by
  rcases hbt : MaterialModel.getBasicTensors ⟨rho, props⟩ u with ⟨I, F, J, C, E⟩
  refine ⟨⟨rfl, rfl, rfl⟩, ?_, ?_, ?_, ?_, ?_⟩ <;> intro hmiss
  · simp [StVenantKirchoff.interiorResidual, hbt, hmiss]
  · cases hk : props.lookup "kappa" <;>
      simp [StVenantKirchoff.interiorResidual, hbt, hmiss, hk]
  · simp [NeoHookean.interiorResidual, hbt, hmiss]
  · cases hm : props.lookup "mu" <;>
      simp [NeoHookean.interiorResidual, hbt, hmiss, hm]
  · simp [JacobianStiffening.interiorResidual, hbt, hmiss]

/-- C5: instantiating the abstract base class directly fails with a
TypeError, because `interiorResidual` is declared abstract and left
unimplemented there, while each concrete law instantiates successfully. -/
theorem c5_abstract_base_not_instantiable (rho : ℝ) (props : List (String × ℝ)) :
    instantiateClass .materialModel rho props =
      .error "TypeError: cannot instantiate abstract class" ∧
    instantiateClass .stVenantKirchoff rho props = .ok ⟨rho, props⟩ ∧
    instantiateClass .neoHookean rho props = .ok ⟨rho, props⟩ ∧
    instantiateClass .jacobianStiffening rho props = .ok ⟨rho, props⟩ :=
  ⟨rfl, rfl, rfl, rfl⟩

/-- C7: with mesh Jacobian `J_M = 1`, the fictitious moduli computed inside
the stiffening residual equal `bulkModulus 1 0.3` and `shearModulus 1 0.3`
exactly, for every stored exponent, and the residual applies the St.
Venant-Kirchhoff stress formula with those moduli. -/
theorem c7_jacobian_stiffening_JM_one
    (js : JacobianStiffening) (p : ℝ) (u : DisplacementField)
    (gradv : Mat (uflNsd u.ufl_shape)) (dx : ℝ)
    (hp : js.toMaterialModel.props.lookup "power_J_M" = some p) :
    fictitiousBulkModulus 1 p = bulkModulus 1 0.3 ∧
    fictitiousShearModulus 1 p = shearModulus 1 0.3 ∧
    js.interiorResidual u gradv 1 dx =
      some (frobInner
        ((u.gradVal + 1) *
          stVenantKirchoffStress (bulkModulus 1 0.3) (shearModulus 1 0.3)
            (1 : Mat (uflNsd u.ufl_shape))
            ((0.5 : ℝ) • ((u.gradVal + 1).transpose * (u.gradVal + 1) - 1)))
        gradv * dx) := by
  have hK : fictitiousBulkModulus 1 p = bulkModulus 1 0.3 := by
    norm_num [fictitiousBulkModulus, Real.one_rpow]
  have hmu : fictitiousShearModulus 1 p = shearModulus 1 0.3 := by
    norm_num [fictitiousShearModulus, Real.one_rpow]
  refine ⟨hK, hmu, ?_⟩
  simp [JacobianStiffening.interiorResidual, MaterialModel.getBasicTensors, hp,
    hK, hmu, stVenantKirchoffStress]

/-- C8: the stress computed by the St. Venant-Kirchhoff residual, as a
function of the Green-Lagrange strain with the moduli fixed and `I` the
identity, is linear: it commutes with scalar multiples and with sums. -/
theorem c8_stVenantKirchoff_stress_linear (kappa mu : ℝ) (n : ℕ) :
    (∀ (alpha : ℝ) (E : Mat n),
      stVenantKirchoffStress kappa mu 1 (alpha • E) =
        alpha • stVenantKirchoffStress kappa mu 1 E) ∧
    (∀ E1 E2 : Mat n,
      stVenantKirchoffStress kappa mu 1 (E1 + E2) =
        stVenantKirchoffStress kappa mu 1 E1 + stVenantKirchoffStress kappa mu 1 E2) := by
  constructor
  · intro alpha E
    ext i j
    simp [stVenantKirchoffStress, Matrix.trace_smul, Matrix.add_apply,
      Matrix.smul_apply, Matrix.sub_apply, Matrix.one_apply, smul_eq_mul]
    by_cases hij : i = j <;> simp [hij] <;> ring
  · intro E1 E2
    ext i j
    simp [stVenantKirchoffStress, Matrix.trace_add, Matrix.add_apply,
      Matrix.smul_apply, Matrix.sub_apply, Matrix.one_apply, smul_eq_mul]
    by_cases hij : i = j <;> simp [hij] <;> ring

/-- C9: every public method is a pure function of the state stored by the
constructor (`rho` and `props`) and of its arguments: two instances holding
equal stored state are observationally equal on `getBasicTensors`, the five
shared residual methods and each law-specific `interiorResidual`, so a call
never changes what later equal-argument calls return. -/
theorem c9_methods_read_only_constructor_state
    (m1 m2 : MaterialModel) (hrho : m1.rho = m2.rho) (hprops : m1.props = m2.props)
    {n : ℕ} (a vdot f h u v g : Vec n) (c beta dx ds : ℝ)
    (ud : DisplacementField) (gradvd : Mat (uflNsd ud.ufl_shape)) (J_M : ℝ) :
    m1.accelerationResidual a v dx = m2.accelerationResidual a v dx ∧
    m1.massDampingResidual vdot c v dx = m2.massDampingResidual vdot c v dx ∧
    m1.bodyforceResidual f v dx = m2.bodyforceResidual f v dx ∧
    m1.tractionBCResidual h v ds = m2.tractionBCResidual h v ds ∧
    m1.penaltyWeakBCResidual u v g beta ds = m2.penaltyWeakBCResidual u v g beta ds ∧
    m1.getBasicTensors ud = m2.getBasicTensors ud ∧
    StVenantKirchoff.interiorResidual ⟨m1⟩ ud gradvd dx =
      StVenantKirchoff.interiorResidual ⟨m2⟩ ud gradvd dx ∧
    NeoHookean.interiorResidual ⟨m1⟩ ud gradvd none dx =
      NeoHookean.interiorResidual ⟨m2⟩ ud gradvd none dx ∧
    JacobianStiffening.interiorResidual ⟨m1⟩ ud gradvd J_M dx =
      JacobianStiffening.interiorResidual ⟨m2⟩ ud gradvd J_M dx := by
  obtain ⟨r1, p1⟩ := m1
  obtain ⟨r2, p2⟩ := m2
  cases hrho
  cases hprops
  exact ⟨rfl, rfl, rfl, rfl, rfl, rfl, rfl, rfl, rfl⟩

/-- C10: the five shared residual methods never read the property mapping:
on instances of the same law with equal density and arbitrary (possibly
empty) property mappings they return equal, always-defined real results, so
a missing-property failure can only arise inside `interiorResidual`. -/
theorem c10_shared_methods_ignore_props
    (rho : ℝ) (p1 p2 : List (String × ℝ)) {n : ℕ}
    (a vdot f h u v g : Vec n) (c beta dx ds : ℝ) :
    (StVenantKirchoff.accelerationResidual ⟨⟨rho, p1⟩⟩ a v dx =
        StVenantKirchoff.accelerationResidual ⟨⟨rho, p2⟩⟩ a v dx ∧
      StVenantKirchoff.massDampingResidual ⟨⟨rho, p1⟩⟩ vdot c v dx =
        StVenantKirchoff.massDampingResidual ⟨⟨rho, p2⟩⟩ vdot c v dx ∧
      StVenantKirchoff.bodyforceResidual ⟨⟨rho, p1⟩⟩ f v dx =
        StVenantKirchoff.bodyforceResidual ⟨⟨rho, p2⟩⟩ f v dx ∧
      StVenantKirchoff.tractionBCResidual ⟨⟨rho, p1⟩⟩ h v ds =
        StVenantKirchoff.tractionBCResidual ⟨⟨rho, p2⟩⟩ h v ds ∧
      StVenantKirchoff.penaltyWeakBCResidual ⟨⟨rho, p1⟩⟩ u v g beta ds =
        StVenantKirchoff.penaltyWeakBCResidual ⟨⟨rho, p2⟩⟩ u v g beta ds) ∧
    (NeoHookean.accelerationResidual ⟨⟨rho, p1⟩⟩ a v dx =
        NeoHookean.accelerationResidual ⟨⟨rho, p2⟩⟩ a v dx ∧
      NeoHookean.massDampingResidual ⟨⟨rho, p1⟩⟩ vdot c v dx =
        NeoHookean.massDampingResidual ⟨⟨rho, p2⟩⟩ vdot c v dx ∧
      NeoHookean.bodyforceResidual ⟨⟨rho, p1⟩⟩ f v dx =
        NeoHookean.bodyforceResidual ⟨⟨rho, p2⟩⟩ f v dx ∧
      NeoHookean.tractionBCResidual ⟨⟨rho, p1⟩⟩ h v ds =
        NeoHookean.tractionBCResidual ⟨⟨rho, p2⟩⟩ h v ds ∧
      NeoHookean.penaltyWeakBCResidual ⟨⟨rho, p1⟩⟩ u v g beta ds =
        NeoHookean.penaltyWeakBCResidual ⟨⟨rho, p2⟩⟩ u v g beta ds) ∧
    (JacobianStiffening.accelerationResidual ⟨⟨rho, p1⟩⟩ a v dx =
        JacobianStiffening.accelerationResidual ⟨⟨rho, p2⟩⟩ a v dx ∧
      JacobianStiffening.massDampingResidual ⟨⟨rho, p1⟩⟩ vdot c v dx =
        JacobianStiffening.massDampingResidual ⟨⟨rho, p2⟩⟩ vdot c v dx ∧
      JacobianStiffening.bodyforceResidual ⟨⟨rho, p1⟩⟩ f v dx =
        JacobianStiffening.bodyforceResidual ⟨⟨rho, p2⟩⟩ f v dx ∧
      JacobianStiffening.tractionBCResidual ⟨⟨rho, p1⟩⟩ h v ds =
        JacobianStiffening.tractionBCResidual ⟨⟨rho, p2⟩⟩ h v ds ∧
      JacobianStiffening.penaltyWeakBCResidual ⟨⟨rho, p1⟩⟩ u v g beta ds =
        JacobianStiffening.penaltyWeakBCResidual ⟨⟨rho, p2⟩⟩ u v g beta ds) :=
  ⟨⟨rfl, rfl, rfl, rfl, rfl⟩, ⟨rfl, rfl, rfl, rfl, rfl⟩, ⟨rfl, rfl, rfl, rfl, rfl⟩⟩

/-- Witness for C1 at a concrete two-dimensional zero displacement. -/
theorem c1_zero_displacement_all_laws_witness :
    (⟨[2], 0⟩ : DisplacementField).gradVal = 0 ∧
    List.lookup "kappa" [("kappa", (3 : ℝ)), ("mu", 4)] = some 3 ∧
    StVenantKirchoff.interiorResidual ⟨⟨1, [("kappa", 3), ("mu", 4)]⟩⟩ ⟨[2], 0⟩ 0 1 =
      some 0 ∧
    NeoHookean.interiorResidual ⟨⟨1, [("kappa", 3), ("mu", 4)]⟩⟩ ⟨[2], 0⟩ 0 none 1 =
      some 0 ∧
    JacobianStiffening.interiorResidual ⟨⟨1, [("power_J_M", 2)]⟩⟩ ⟨[2], 0⟩ 0 1 1 =
      some 0 := by
  have hc := c1_zero_displacement_all_laws ⟨⟨1, [("kappa", 3), ("mu", 4)]⟩⟩
    ⟨⟨1, [("kappa", 3), ("mu", 4)]⟩⟩ ⟨⟨1, [("power_J_M", 2)]⟩⟩ ⟨[2], 0⟩ 0 1 1 3 4 3 4 2
    rfl rfl rfl rfl rfl rfl
  exact ⟨rfl, rfl, hc.2.2.2.1, hc.2.2.2.2.1, hc.2.2.2.2.2⟩

/-- Witness for C3 at concrete one-dimensional inputs and density 1. -/
theorem c3_shared_residual_methods_witness :
    (⟨⟨1, []⟩⟩ : StVenantKirchoff).toMaterialModel.rho =
      (⟨⟨1, [("kappa", 5)]⟩⟩ : NeoHookean).toMaterialModel.rho ∧
    StVenantKirchoff.tractionBCResidual ⟨⟨1, []⟩⟩ ![2] ![3] 7 =
      spec_tractionBCResidual ![2] ![3] 7 ∧
    JacobianStiffening.accelerationResidual ⟨⟨1, [("power_J_M", 2)]⟩⟩ ![2] ![3] 7 =
      spec_accelerationResidual (1 : ℝ) ![2] ![3] 7 := by
  refine ⟨rfl, ?_, ?_⟩
  · exact (c3_shared_residual_methods ⟨⟨1, []⟩⟩ ⟨⟨1, [("kappa", 5)]⟩⟩
      ⟨⟨1, [("power_J_M", 2)]⟩⟩ ![0] ![0] ![0] ![2] ![0] ![3] ![0] 0 0 0 7
      rfl rfl).2.2.2.1.1
  · exact (c3_shared_residual_methods ⟨⟨1, []⟩⟩ ⟨⟨1, [("kappa", 5)]⟩⟩
      ⟨⟨1, [("power_J_M", 2)]⟩⟩ ![2] ![0] ![0] ![0] ![0] ![3] ![0] 0 0 7 7
      rfl rfl).1.2.2

/-- Witness for C4 with an empty property mapping. -/
theorem c4_missing_property_lazy_failure_witness :
    List.lookup "kappa" ([] : List (String × ℝ)) = none ∧
    instantiateClass .stVenantKirchoff 0 [] = .ok ⟨0, []⟩ ∧
    StVenantKirchoff.interiorResidual ⟨⟨0, []⟩⟩ ⟨[2], 0⟩ 0 1 = none ∧
    NeoHookean.interiorResidual ⟨⟨0, []⟩⟩ ⟨[2], 0⟩ 0 none 1 = none ∧
    JacobianStiffening.interiorResidual ⟨⟨0, []⟩⟩ ⟨[2], 0⟩ 0 1 1 = none := by
  have hc := c4_missing_property_lazy_failure 0 [] ⟨[2], 0⟩ 0 1 1
  exact ⟨rfl, hc.1.1, hc.2.1 rfl, hc.2.2.2.1 rfl, hc.2.2.2.2.2 rfl⟩

/-- Witness for C7 with exponent 2 stored under the required key. -/
theorem c7_jacobian_stiffening_JM_one_witness :
    List.lookup "power_J_M" [("power_J_M", (2 : ℝ))] = some 2 ∧
    fictitiousBulkModulus 1 2 = bulkModulus 1 0.3 ∧
    fictitiousShearModulus 1 2 = shearModulus 1 0.3 := by
  have hc := c7_jacobian_stiffening_JM_one ⟨⟨0, [("power_J_M", 2)]⟩⟩ 2 ⟨[2], 0⟩ 0 1 rfl
  exact ⟨rfl, hc.1, hc.2.1⟩

/-- Witness for C9 at concrete instances holding equal stored state. -/
theorem c9_methods_read_only_constructor_state_witness :
    (⟨1, [("kappa", 2)]⟩ : MaterialModel).rho =
      (⟨1, [("kappa", 2)]⟩ : MaterialModel).rho ∧
    MaterialModel.accelerationResidual ⟨1, [("kappa", 2)]⟩ ![1] ![1] 1 =
      MaterialModel.accelerationResidual ⟨1, [("kappa", 2)]⟩ ![1] ![1] 1 := by
  have hc := c9_methods_read_only_constructor_state ⟨1, [("kappa", 2)]⟩ ⟨1, [("kappa", 2)]⟩
    rfl rfl ![1] ![1] ![1] ![1] ![1] ![1] ![1] 1 1 1 1 ⟨[1], 0⟩ 0 1
  exact ⟨rfl, hc.1⟩

end




